import Mathlib

/-!
# Verification of `lib/gmail-fetch.py` against its specification

Shallow embedding of the Gmail integration script.  Python strings that flow
through `base64.urlsafe_b64decode(...)` / `.decode('utf-8')` are represented by
their UTF-8 byte sequences (`List Nat`, each byte `< 256`); header values that
are only copied around are represented by Lean `String`s.  Raised Python
exceptions are modelled with `Except PyErr`; calls to the remote Gmail service
and to the OAuth library are modelled by environment records that supply each
call's outcome.
-/

namespace GmailFetch

/-- Python exceptions that the script can raise or catch.  `httpError` is
`googleapiclient.errors.HttpError` (the only class the script ever catches);
`binasciiError` is the error raised by `base64.urlsafe_b64decode` on malformed
input; `unicodeDecodeError` by `bytes.decode('utf-8')` on invalid UTF-8;
`refreshError` by `google.oauth2.credentials.Credentials.refresh` when the
refresh exchange is rejected. -/
inductive PyErr where
  | httpError (status : Nat) (message : String)
  | binasciiError
  | unicodeDecodeError
  | refreshError
  deriving DecidableEq, Repr

/-! ## base64url (`base64.urlsafe_b64encode` / `urlsafe_b64decode`)

Bytes are `Nat`s below 256; encoded text is a `List Char` over the urlsafe
alphabet `A-Z a-z 0-9 - _` with `=` padding.  The decoder models Python's
behaviour on canonical inputs: well-padded blocks decode, anything containing a
character outside the alphabet (or with a length that is not a multiple of
four) raises `binascii.Error`. -/

/-- Value of a base64url alphabet character, `none` for a non-alphabet
character. -/
def charSextet (c : Char) : Option Nat :=
  let n := c.toNat
  if 65 ≤ n ∧ n ≤ 90 then some (n - 65)          -- A-Z
  else if 97 ≤ n ∧ n ≤ 122 then some (n - 97 + 26) -- a-z
  else if 48 ≤ n ∧ n ≤ 57 then some (n - 48 + 52)  -- 0-9
  else if n = 45 then some 62                       -- '-'
  else if n = 95 then some 63                       -- '_'
  else none

/-- base64url alphabet character for a sextet value `< 64`. -/
def sextetChar (n : Nat) : Char :=
  if n < 26 then Char.ofNat (65 + n)
  else if n < 52 then Char.ofNat (97 + (n - 26))
  else if n < 62 then Char.ofNat (48 + (n - 52))
  else if n = 62 then Char.ofNat 45
  else Char.ofNat 95

/-- `base64.urlsafe_b64encode`: three bytes become four alphabet characters, a
two-byte tail becomes three characters and `=`, a one-byte tail two characters
and `==`. -/
def b64Encode : List Nat → List Char
  | a :: b :: c :: rest =>
      sextetChar (a / 4) :: sextetChar (a % 4 * 16 + b / 16) ::
      sextetChar (b % 16 * 4 + c / 64) :: sextetChar (c % 64) :: b64Encode rest
  | [a, b] => [sextetChar (a / 4), sextetChar (a % 4 * 16 + b / 16),
      sextetChar (b % 16 * 4), Char.ofNat 61]
  | [a] => [sextetChar (a / 4), sextetChar (a % 4 * 16), Char.ofNat 61, Char.ofNat 61]
  | [] => []

/-- `base64.urlsafe_b64decode` on canonical input: `none` models a raised
`binascii.Error`. -/
def b64Decode : List Char → Option (List Nat)
  | c1 :: c2 :: c3 :: c4 :: rest =>
      if c3 = Char.ofNat 61 ∧ c4 = Char.ofNat 61 ∧ rest = [] then
        match charSextet c1, charSextet c2 with
        | some s1, some s2 => some [s1 * 4 + s2 / 16]
        | _, _ => none
      else if c4 = Char.ofNat 61 ∧ rest = [] then
        match charSextet c1, charSextet c2, charSextet c3 with
        | some s1, some s2, some s3 =>
            some [s1 * 4 + s2 / 16, s2 % 16 * 16 + s3 / 4]
        | _, _, _ => none
      else
        match charSextet c1, charSextet c2, charSextet c3, charSextet c4,
            b64Decode rest with
        | some s1, some s2, some s3, some s4, some tail =>
            some ((s1 * 4 + s2 / 16) :: (s2 % 16 * 16 + s3 / 4) ::
              (s3 % 4 * 64 + s4) :: tail)
        | _, _, _, _, _ => none
  | [] => some []
  | _ => none

/-! ## Strict UTF-8 validity (`bytes.decode('utf-8')`)

Python's strict UTF-8 decoder accepts exactly the well-formed sequences
(no overlong forms, no surrogates, code points ≤ U+10FFFF); on a valid
sequence it returns the unique `str` whose UTF-8 encoding is the input, which
in our bytes-level model of `str` is the input itself. -/

/-- Continuation byte check `0x80 ≤ b ≤ 0xBF`. -/
def isCont (b : Nat) : Bool := 128 ≤ b ∧ b ≤ 191

/-- Whether a byte sequence is well-formed UTF-8 (Python strict decode
succeeds). -/
def validUtf8 : List Nat → Bool
  | [] => true
  | b :: rest =>
    if b < 128 then validUtf8 rest
    else if 194 ≤ b ∧ b ≤ 223 then
      match rest with
      | c :: r => isCont c && validUtf8 r
      | [] => false
    else if b = 224 then
      match rest with
      | c :: d :: r => (160 ≤ c ∧ c ≤ 191 : Bool) && isCont d && validUtf8 r
      | _ => false
    else if (225 ≤ b ∧ b ≤ 236) ∨ b = 238 ∨ b = 239 then
      match rest with
      | c :: d :: r => isCont c && isCont d && validUtf8 r
      | _ => false
    else if b = 237 then
      match rest with
      | c :: d :: r => (128 ≤ c ∧ c ≤ 159 : Bool) && isCont d && validUtf8 r
      | _ => false
    else if b = 240 then
      match rest with
      | c :: d :: e :: r =>
          (144 ≤ c ∧ c ≤ 191 : Bool) && isCont d && isCont e && validUtf8 r
      | _ => false
    else if 241 ≤ b ∧ b ≤ 243 then
      match rest with
      | c :: d :: e :: r => isCont c && isCont d && isCont e && validUtf8 r
      | _ => false
    else if b = 244 then
      match rest with
      | c :: d :: e :: r =>
          (128 ≤ c ∧ c ≤ 143 : Bool) && isCont d && isCont e && validUtf8 r
      | _ => false
    else false

/-- `base64.urlsafe_b64decode(data).decode('utf-8')` as it appears throughout
`_get_message_body`: `binascii.Error` on malformed base64, then
`UnicodeDecodeError` on invalid UTF-8, else the decoded text (as bytes). -/
def decodeData (data : List Char) : Except PyErr (List Nat) :=
  match b64Decode data with
  | none => .error .binasciiError
  | some bytes => if validUtf8 bytes then .ok bytes else .error .unicodeDecodeError

/-! ## Wire-format messages and `_parse_email` / `_get_message_body` -/

/-- One direct child in `payload['parts']` as the script reads it: only
`part['mimeType']` and `part['body']['data']` are ever accessed, so any
nesting inside a child is invisible to the code and not modelled. -/
structure Part where
  mimeType : String
  data : List Char
  deriving DecidableEq, Repr

/-- The fields of the Gmail API `payload` object that the script reads:
`mimeType`, `headers` (name/value pairs), `body.data`, and the `parts` list
when present (the code tests `'parts' in payload`, hence the `Option`). -/
structure Payload where
  mimeType : String
  headers : List (String × String)
  bodyData : List Char
  parts : Option (List Part)
  deriving DecidableEq, Repr

/-- The fields of a Gmail API message object used by `_parse_email`:
`msg['id']`, `msg['threadId']`, `msg['snippet']`, `msg['payload']`. -/
structure Msg where
  id : String
  threadId : String
  snippet : String
  payload : Payload
  deriving DecidableEq, Repr

/-- The structured record built by `_parse_email` (lines 205-215).  `body`
holds the UTF-8 bytes of the Python `body` string; the initial values are
`None`/`''`/`False` exactly as in the source dict literal. -/
structure Email where
  id : String
  thread_id : String
  snippet : String
  date : Option String
  «from» : Option String
  «to» : Option String
  subject : Option String
  body : List Nat
  is_html : Bool
  deriving DecidableEq, Repr

/-- The `for part in payload['parts']` loop of `_get_message_body`
(lines 238-246): the first part whose mimeType is `text/plain` — or, via the
`elif`, `text/html` — has its body decoded and the loop `break`s in either
branch; other parts are skipped; if no part matches, `body` keeps its initial
value `""`. -/
def bodyFromParts : List Part → Except PyErr (List Nat)
  | [] => .ok []
  | p :: rest =>
    if p.mimeType = "text/plain" then decodeData p.data
    else if p.mimeType = "text/html" then decodeData p.data
    else bodyFromParts rest

/-- `_get_message_body` (lines 233-255): with child parts, run the part loop;
otherwise apply the same plain/html test to the top-level payload.  A raised
decoding exception propagates (nothing here catches it). -/
def get_message_body (payload : Payload) : Except PyErr (List Nat) :=
  match payload.parts with
  | some parts => bodyFromParts parts
  | none =>
    if payload.mimeType = "text/plain" then decodeData payload.bodyData
    else if payload.mimeType = "text/html" then decodeData payload.bodyData
    else .ok []

/-- Python `str.lower()` as used on header names (line 218), mapped
per character; ASCII-faithful, which covers every name the loop compares
against (`date`, `from`, `to`, `subject` are all ASCII). -/
def pyLower (s : String) : String := String.mk (s.data.map Char.toLower)

/-- One iteration of the header loop in `_parse_email` (lines 217-226): the
header name is lowercased and compared against date/from/to/subject; a later
duplicate header overwrites an earlier one; anything else is ignored. -/
def applyHeader (e : Email) (h : String × String) : Email :=
  let name := pyLower h.1
  if name = "date" then { e with date := some h.2 }
  else if name = "from" then { e with «from» := some h.2 }
  else if name = "to" then { e with «to» := some h.2 }
  else if name = "subject" then { e with subject := some h.2 }
  else e

/-- `_parse_email` (lines 200-231): build the initial record, fold the header
loop over `msg['payload'].get('headers', [])`, then set `body` from
`_get_message_body`; a decoding exception raised there propagates out of
`_parse_email`. -/
def parse_email (msg : Msg) : Except PyErr Email :=
  let base : Email :=
    { id := msg.id, thread_id := msg.threadId, snippet := msg.snippet,
      date := none, «from» := none, «to» := none, subject := none,
      body := [], is_html := false }
  let e := msg.payload.headers.foldl applyHeader base
  (get_message_body msg.payload).map fun b => { e with body := b }

/-! ## Read-type gateway operations -/

/-- The remote Gmail service's responses for one read-type command: the
`messages().list` outcome (the listed message ids) and each `messages().get`
outcome by id.  `.error (.httpError ..)` models a raised `HttpError`. -/
structure FetchEnv where
  listResult : Except PyErr (List String)
  getResult : String → Except PyErr Msg

/-- The fetch loop shared by `get_unread_emails` (lines 105-110) and
`get_emails_by_filter` (lines 135-140): each listed id is fetched with
`messages().get` and parsed, in list order; a raised exception aborts the
loop, discarding everything accumulated so far. -/
def fetchAll (get : String → Except PyErr Msg) : List String → Except PyErr (List Email)
  | [] => .ok []
  | i :: rest => do
      let msg ← get i
      let e ← parse_email msg
      let tail ← fetchAll get rest
      .ok (e :: tail)

/-- `get_unread_emails` (lines 90-116): the whole body is wrapped in
`try/except HttpError`, which prints the error and returns `[]`; any other
exception (e.g. a `UnicodeDecodeError` escaping `_parse_email`) propagates.
The query string built from the filters (lines 93-97) only parameterizes the
external list call, whose outcome `FetchEnv.listResult` supplies. -/
def get_unread_emails (env : FetchEnv) : Except PyErr (List Email) :=
  match (do
      let ids ← env.listResult
      fetchAll env.getResult ids : Except PyErr (List Email)) with
  | .ok emails => .ok emails
  | .error (.httpError _ _) => .ok []
  | .error e => .error e

/-- `get_emails_by_filter` (lines 118-146): identical control flow to
`get_unread_emails` — same loop, same `try/except HttpError` returning `[]` —
differing only in the query string (date window plus custom filter) passed to
the external list call. -/
def get_emails_by_filter (env : FetchEnv) : Except PyErr (List Email) :=
  match (do
      let ids ← env.listResult
      fetchAll env.getResult ids : Except PyErr (List Email)) with
  | .ok emails => .ok emails
  | .error (.httpError _ _) => .ok []
  | .error e => .error e

/-! ## `send_email` -/

/-- Arguments of `send_email` (line 148); `body` is the Python body string as
UTF-8 bytes. -/
structure SendArgs where
  to_email : String
  subject : String
  body : List Nat
  is_html : Bool
  reply_to_id : Option String

/-- The MIME object assembled by the `email.mime` constructors:
`MIMEText(body, subtype)` or `MIMEMultipart('alternative')` with attached
parts. -/
inductive MimeObj where
  | text (subtype : String) (content : List Nat)
  | multipartAlternative (parts : List MimeObj)

/-- The outgoing message just before serialization: its MIME object and the
headers assigned by `message[...] = ...`. -/
structure BuiltMessage where
  mime : MimeObj
  headers : List (String × String)

/-- Message construction in `send_email` (lines 150-164): an `alternative`
container with a single HTML part when `is_html`, else a single plain-text
part; then the `to` and `subject` headers, and, when `reply_to_id` is set,
both `In-Reply-To` and `References` headers equal to it. -/
def buildMessage (a : SendArgs) : BuiltMessage :=
  let m := if a.is_html then MimeObj.multipartAlternative [MimeObj.text "html" a.body]
           else MimeObj.text "plain" a.body
  let hs := [("to", a.to_email), ("subject", a.subject)]
  let hs := match a.reply_to_id with
    | some t => hs ++ [("In-Reply-To", t), ("References", t)]
    | none => hs
  ⟨m, hs⟩

/-- The dict submitted to `messages().send` (lines 166-173): the built message
(whose serialization to `raw` is the email library's, kept structured here)
and a `threadId` key exactly when `reply_to_id` was given. -/
structure SendRequest where
  message : BuiltMessage
  threadId : Option String

/-- `send_email`'s request construction: `send_message = {'raw': ...}` plus
`send_message['threadId'] = reply_to_id` when `reply_to_id` is truthy. -/
def send_email_request (a : SendArgs) : SendRequest :=
  ⟨buildMessage a, a.reply_to_id⟩

/-- Modelled from the spec: §3 "MimePart" and §4.2 — the remote mailbox API
(outside this repository) stores a submitted raw MIME message as the nested
part representation that `get-message` later returns, each text leaf's
content re-exposed base64url-encoded in `body.data`.  This maps one attached
part of an `alternative` container to the child part the API would return. -/
def partOfMime : MimeObj → Part
  | .text sub content => ⟨"text/" ++ sub, b64Encode content⟩
  | .multipartAlternative _ => ⟨"multipart/alternative", []⟩

/-- Modelled from the spec: §3 "MimePart" and §4.2 — the payload the remote
API returns for a previously submitted message: a single-part payload for a
bare text message, or a `multipart/alternative` payload whose children are
the attached parts; headers are the submitted message headers. -/
def payloadOfMessage (m : BuiltMessage) : Payload :=
  match m.mime with
  | .text sub content => ⟨"text/" ++ sub, m.headers, b64Encode content, none⟩
  | .multipartAlternative ps =>
      ⟨"multipart/alternative", m.headers, [], some (ps.map partOfMime)⟩

/-- Modelled from the spec: the full `get-message` object the remote API
returns for a sent message, with server-assigned id, thread id and snippet
around the payload of `payloadOfMessage`. -/
def msgOfMessage (i tid snip : String) (m : BuiltMessage) : Msg :=
  ⟨i, tid, snip, payloadOfMessage m⟩

/-! ## Authentication (`authenticate`, lines 37-88) -/

/-- The three predicates of a loaded `google.oauth2.credentials.Credentials`
object that `authenticate` tests: `creds.valid`, `creds.expired`, and
truthiness of `creds.refresh_token`. -/
structure Creds where
  valid : Bool
  expired : Bool
  refreshToken : Bool
  deriving DecidableEq, Repr

/-- The observable side effects of `authenticate`, in program order. -/
inductive Effect where
  | refreshCall        -- creds.refresh(Request()): network call to the token endpoint
  | localServerConsent -- flow.run_local_server(port=0): interactive consent attempt
  | authUrlPrinted     -- printing flow.authorization_url() in the headless fallback
  | writeToken         -- open(token_path, 'w'); token.write(creds.to_json())
  | buildService       -- build('gmail', 'v1', credentials=creds)
  deriving DecidableEq, Repr

/-- Outcomes of the external calls `authenticate` can make: the loaded
token.json (when the file exists), existence of credentials.json, the refresh
exchange result (`none` models a raised `RefreshError`), the local-server
consent result (`none` models the exception taken in headless environments),
and whether `build` succeeds. -/
structure AuthEnv where
  tokenFile : Option Creds
  credentialsExists : Bool
  refreshResult : Option Creds
  localServerResult : Option Creds
  buildOk : Bool

/-- Lines 83-88: `build('gmail', 'v1', credentials=creds)` inside
`try/except`, returning `True` on success and `False` on exception. -/
def buildStep (pre : List Effect) (env : AuthEnv) : List Effect × Except PyErr Bool :=
  (pre ++ [Effect.buildService], .ok env.buildOk)

/-- The consent branch (lines 52-77): missing credentials.json prints the
setup guide and returns `False`; otherwise `run_local_server` either yields
credentials (which are then saved, line 80) or raises, in which case the
manual-OAuth instructions (including the authorization URL) are printed and
`False` is returned without saving. -/
def consentFlow (pre : List Effect) (env : AuthEnv) : List Effect × Except PyErr Bool :=
  if ¬ env.credentialsExists then (pre, .ok false)
  else
    match env.localServerResult with
    | some _ => buildStep (pre ++ [Effect.localServerConsent, Effect.writeToken]) env
    | none => (pre ++ [Effect.localServerConsent, Effect.authUrlPrinted], .ok false)

/-- `authenticate` (lines 37-88): load token.json if present; if the loaded
credentials are valid, go straight to `build`; if expired with a refresh
token, call `creds.refresh(Request())` — a raised `RefreshError` is not
caught anywhere and propagates — then save and build; otherwise take the
consent branch.  The returned trace lists the effects in program order. -/
def authenticate (env : AuthEnv) : List Effect × Except PyErr Bool :=
  match env.tokenFile with
  | some creds =>
      if creds.valid then buildStep [] env
      else if creds.expired ∧ creds.refreshToken then
        match env.refreshResult with
        | some _ => buildStep [Effect.refreshCall, Effect.writeToken] env
        | none => ([Effect.refreshCall], .error .refreshError)
      else consentFlow [] env
  | none => consentFlow [] env

/-! ## Token persistence (lines 79-81 and 456-458) -/

/-- The successive on-disk contents of token.json during the save in
`authenticate` (lines 80-81) and in the `auth-code` branch of `main`
(lines 457-458): `open(path, 'w')` truncates the file to empty, then
`write` stores the new JSON. -/
def tokenWriteStates (old new : String) : List String := [old, "", new]

/-- The atomicity property the spec demands of the credential write (§4.1
invariant): every state the file passes through during the write is either
the old contents or the new contents. -/
def writeAtomic (old new : String) : Prop :=
  ∀ s ∈ tokenWriteStates old new, s = old ∨ s = new

/-! ## `mark_as_read` (lines 187-198) -/

/-- A `messages().modify` request.  The Python body dict of `mark_as_read`
has only a `removeLabelIds` key; the absent `addLabelIds` key is the empty
list. -/
structure ModifyCall where
  userId : String
  id : String
  addLabelIds : List String
  removeLabelIds : List String
  deriving DecidableEq, Repr

/-- `mark_as_read` (lines 187-198): a single modify call with
`body={'removeLabelIds': ['UNREAD']}`. -/
def mark_as_read_calls (message_id : String) : List ModifyCall :=
  [⟨"me", message_id, [], ["UNREAD"]⟩]

/-- Modelled from the spec: §6 `modify-message(id, label_deltas)` — the
remote API (outside this repository) applies a label delta to a message's
label set by removing the listed `removeLabelIds` and adding the
`addLabelIds`. -/
def applyModify (labels : List String) (c : ModifyCall) : List String :=
  labels.filter (fun l => ! c.removeLabelIds.contains l) ++ c.addLabelIds

/-! ## Concrete inputs used by counterexamples and witnesses -/

/-- A well-formed plain-text message: body `"Hello"`. -/
def exMsgA : Msg :=
  ⟨"m1", "t1", "snippet-a",
    ⟨"text/plain", [("From", "alice@example.com")], b64Encode [72, 101, 108, 108, 111], none⟩⟩

/-- A batch of two listed ids in which fetching the second raises
`HttpError`. -/
def exEnvC1 : FetchEnv :=
  ⟨.ok ["m1", "m2"],
    fun i => if i = "m1" then .ok exMsgA else .error (.httpError 500 "backend error")⟩

/-- What `_parse_email` produces for `exMsgA`. -/
def exEmailA : Email :=
  { id := "m1", thread_id := "t1", snippet := "snippet-a", date := none,
    «from» := some "alice@example.com", «to» := none, subject := none,
    body := [72, 101, 108, 108, 111], is_html := false }

/-- A `text/plain` child part with content `"Hello"`. -/
def plainPart : Part := ⟨"text/plain", b64Encode [72, 101, 108, 108, 111]⟩

/-- A `text/html` child part with content `"<b>Hi</b>"`. -/
def htmlPart : Part :=
  ⟨"text/html", b64Encode [60, 98, 62, 72, 105, 60, 47, 98, 62]⟩

/-- A payload with one `text/html` and one `text/plain` child, HTML first. -/
def exPayloadC2 : Payload :=
  ⟨"multipart/alternative", [], [], some [htmlPart, plainPart]⟩

/-- A single-part `text/html` message with base64url body `"SGVsbG8="`. -/
def exMsgC3 : Msg :=
  ⟨"id3", "t3", "snip3", ⟨"text/html", [("Subject", "Greeting")], "SGVsbG8=".toList, none⟩⟩

/-- What `_parse_email` produces for `exMsgC3`: body `"Hello"`, but
`is_html` still `False`. -/
def exEmailC3 : Email :=
  { id := "id3", thread_id := "t3", snippet := "snip3", date := none,
    «from» := none, «to» := none, subject := some "Greeting",
    body := [72, 101, 108, 108, 111], is_html := false }

/-- A single-part `text/plain` message whose body `"_w=="` decodes to the
byte `0xFF`, which is not valid UTF-8. -/
def exMsgC4 : Msg := ⟨"id4", "t4", "snip4", ⟨"text/plain", [], "_w==".toList, none⟩⟩

/-- A batch containing only the malformed message `exMsgC4`. -/
def exEnvC4 : FetchEnv := ⟨.ok ["id4"], fun _ => .ok exMsgC4⟩

/-- An expired credential with a refresh token, in an environment where the
refresh exchange is rejected even though credentials.json exists and consent
would succeed. -/
def exEnvC5 : AuthEnv :=
  ⟨some ⟨false, true, true⟩, true, none, some ⟨true, false, false⟩, true⟩

/-- A valid, unexpired persisted credential. -/
def exEnvC9 : AuthEnv := ⟨some ⟨true, false, false⟩, true, none, none, true⟩

/-- A reply send: HTML body `"Ok"`, threaded onto `"T1"`. -/
def exArgsC7 : SendArgs := ⟨"bob@example.com", "Re: hi", [79, 107], true, some "T1"⟩

/-- A plain outgoing message with body `"Hi"` and no reply threading. -/
def exArgsC8 : SendArgs := ⟨"bob@example.com", "hello subject", [72, 105], false, none⟩

/-! ## Codec lemmas -/

/-- Decoding inverts the alphabet map on every sextet value. -/
theorem charSextet_sextetChar : ∀ n < 64, charSextet (sextetChar n) = some n := by
  decide

/-- No alphabet character is the padding character `=`. -/
theorem sextetChar_ne_pad : ∀ n < 64, sextetChar n ≠ Char.ofNat 61 := by
  decide

/-- `urlsafe_b64decode` inverts `urlsafe_b64encode` on byte sequences. -/
theorem b64Decode_b64Encode :
    ∀ (l : List Nat), (∀ x ∈ l, x < 256) → b64Decode (b64Encode l) = some l
  | [], _ => rfl
  | [a], h => by
      have ha : a < 256 := h a (by simp)
      simp only [b64Encode, b64Decode]
      rw [if_pos (by simp), charSextet_sextetChar _ (by omega),
        charSextet_sextetChar _ (by omega)]
      simp only [Option.some.injEq, List.cons.injEq, and_true]
      omega
  | [a, b], h => by
      have ha : a < 256 := h a (by simp)
      have hb : b < 256 := h b (by simp)
      simp only [b64Encode, b64Decode]
      rw [if_neg (by simp [sextetChar_ne_pad (b % 16 * 4) (by omega)]),
        if_pos (by simp), charSextet_sextetChar _ (by omega),
        charSextet_sextetChar _ (by omega), charSextet_sextetChar _ (by omega)]
      simp only [Option.some.injEq, List.cons.injEq, and_true]
      omega
  | a :: b :: c :: rest, h => by
      have ha : a < 256 := h a (by simp)
      have hb : b < 256 := h b (by simp)
      have hc : c < 256 := h c (by simp)
      have ih := b64Decode_b64Encode rest (fun x hx => h x (by simp [hx]))
      simp only [b64Encode, b64Decode]
      rw [if_neg (by simp [sextetChar_ne_pad (b % 16 * 4 + c / 64) (by omega)]),
        if_neg (by simp [sextetChar_ne_pad (c % 64) (by omega)]),
        charSextet_sextetChar _ (by omega), charSextet_sextetChar _ (by omega),
        charSextet_sextetChar _ (by omega), charSextet_sextetChar _ (by omega), ih]
      simp only [Option.some.injEq, List.cons.injEq, and_true]
      omega
termination_by l => l.length

/-! ## Parser lemmas -/

/-- The header loop never touches the `is_html` field. -/
theorem applyHeader_is_html (e : Email) (h : String × String) :
    (applyHeader e h).is_html = e.is_html := by
  simp only [applyHeader]
  split_ifs <;> rfl

/-- Folding the header loop never touches the `is_html` field. -/
theorem foldl_applyHeader_is_html (hs : List (String × String)) (e : Email) :
    (hs.foldl applyHeader e).is_html = e.is_html := by
  induction hs generalizing e with
  | nil => rfl
  | cons hd tl ih => rw [List.foldl_cons, ih, applyHeader_is_html]

/-- `Except` bind on a success reduces to the continuation. -/
theorem except_bind_ok {α β : Type} (x : α) (f : α → Except PyErr β) :
    (Except.ok x >>= f) = f x := rfl

/-- `Except` bind on an error short-circuits. -/
theorem except_bind_err {α β : Type} (e : PyErr) (f : α → Except PyErr β) :
    ((Except.error e : Except PyErr α) >>= f) = .error e := rfl

/-- Decoding inverts encoding at the level of `_get_message_body`'s
`urlsafe_b64decode(..).decode('utf-8')` step, for well-formed text. -/
theorem decodeData_b64Encode (l : List Nat) (hl : ∀ x ∈ l, x < 256)
    (hv : validUtf8 l = true) : decodeData (b64Encode l) = .ok l := by
  simp only [decodeData, b64Decode_b64Encode l hl, hv, if_true]

/-! ## C2 — body extraction order among child parts -/

/-- C2 counterexample: a payload whose children are one `text/html` part
(content `"<b>Hi</b>"`) followed by one `text/plain` part (content
`"Hello"`).  The claim says the plain-text content is chosen regardless of
order; the code returns the HTML content, because the loop breaks on the
first part of either type. -/
theorem c2_claim_counterexample :
    get_message_body exPayloadC2 = .ok [60, 98, 62, 72, 105, 60, 47, 98, 62] ∧
    ([60, 98, 62, 72, 105, 60, 47, 98, 62] : List Nat) ≠ [72, 101, 108, 108, 111] := by
  exact ⟨rfl, by decide⟩

/-- C2 amended: among direct children, the part whose body is decoded is the
first one whose mimeType is `text/plain` or `text/html` — whichever comes
first in part order, not plain-preferred.  (With the plain part first, the
plain content is chosen, as the witness instantiates.) -/
theorem c2_first_text_or_html_part_wins (pre : List Part) (p : Part) (rest : List Part)
    (hpre : ∀ q ∈ pre, q.mimeType ≠ "text/plain" ∧ q.mimeType ≠ "text/html")
    (hp : p.mimeType = "text/plain" ∨ p.mimeType = "text/html") :
    bodyFromParts (pre ++ p :: rest) = decodeData p.data := by
  induction pre with
  | nil =>
      rcases hp with h | h
      · simp [bodyFromParts, h]
      · by_cases h' : p.mimeType = "text/plain" <;> simp [bodyFromParts, h, h']
  | cons q qs ih =>
      have hq := hpre q (by simp)
      simp only [List.cons_append, bodyFromParts, hq.1, hq.2, if_false]
      exact ih (fun r hr => hpre r (by simp [hr]))

/-- C2 witness: with the `text/plain` child first, its content `"Hello"` is
the one decoded. -/
theorem c2_first_text_or_html_part_wins_witness :
    bodyFromParts [plainPart, htmlPart] = decodeData plainPart.data :=
  c2_first_text_or_html_part_wins [] plainPart [htmlPart]
    (by intro q hq; cases hq) (Or.inl rfl)

/-! ## C3 — the single-part HTML scenario and the `is_html` field -/

/-- C3 counterexample: the claimed scenario input — a single-part `text/html`
payload with body `"SGVsbG8="` — decodes to body `"Hello"` but with
`is_html = false`, not `true`: no code path ever sets the field. -/
theorem c3_claim_counterexample :
    parse_email exMsgC3 = .ok exEmailC3 ∧
    exEmailC3.body = [72, 101, 108, 108, 111] ∧ exEmailC3.is_html = false :=
  ⟨rfl, rfl, rfl⟩

/-- C3 amended: the scenario's body is `"Hello"` as claimed, but
`is_html` is `false` — and in general the `is_html` field of every record
`_parse_email` returns is `false`, whatever part was chosen. -/
theorem c3_body_decoded_is_html_always_false :
    parse_email exMsgC3 = .ok exEmailC3 ∧
    ∀ (msg : Msg) (e : Email), parse_email msg = .ok e → e.is_html = false := by
  refine ⟨rfl, ?_⟩
  intro msg e he
  unfold parse_email at he
  cases hb : get_message_body msg.payload with
  | error err => rw [hb] at he; simp [Except.map] at he
  | ok b =>
      rw [hb] at he
      simp only [Except.map, Except.ok.injEq] at he
      rw [← he]
      exact foldl_applyHeader_is_html _ _

/-- C3 witness: the general `is_html = false` fact applied to the scenario
message itself. -/
theorem c3_body_decoded_is_html_always_false_witness : exEmailC3.is_html = false :=
  c3_body_decoded_is_html_always_false.2 exMsgC3 exEmailC3
    c3_body_decoded_is_html_always_false.1

/-! ## C4 — malformed body bytes -/

/-- C4 counterexample: a single-part `text/plain` message whose body
`"_w=="` decodes to the invalid-UTF-8 byte `0xFF`.  The claim says the Email
record is still returned with an empty body; instead `_parse_email` raises
(`UnicodeDecodeError`) and returns nothing. -/
theorem c4_claim_counterexample :
    parse_email exMsgC4 = .error .unicodeDecodeError := rfl

/-- C4 amended: a body that fails base64url or UTF-8 decoding raises an
uncaught exception: `_parse_email` propagates it, and inside
`get_unread_emails` it is not intercepted by the `except HttpError` handler,
so the whole batch crashes instead of returning a record with an empty
body. -/
theorem c4_malformed_body_crashes_batch (env : FetchEnv) (i : String) (msg : Msg)
    (err : PyErr) (hlist : env.listResult = .ok [i]) (hget : env.getResult i = .ok msg)
    (hbody : get_message_body msg.payload = .error err)
    (herr : err = .binasciiError ∨ err = .unicodeDecodeError) :
    get_unread_emails env = .error err := by
  have hparse : parse_email msg = .error err := by
    unfold parse_email
    rw [hbody]
    rfl
  unfold get_unread_emails
  rw [hlist]
  simp only [except_bind_ok, fetchAll, hget, hparse, except_bind_err]
  rcases herr with h | h <;> subst h <;> rfl

/-- C4 witness: the one-message batch around `exMsgC4` crashes with
`UnicodeDecodeError`. -/
theorem c4_malformed_body_crashes_batch_witness :
    get_unread_emails exEnvC4 = .error .unicodeDecodeError :=
  c4_malformed_body_crashes_batch exEnvC4 "id4" exMsgC4 .unicodeDecodeError
    rfl rfl rfl (Or.inr rfl)

/-! ## C6 — credential write atomicity -/

/-- C6 counterexample: the token write is not atomic — `open(path, 'w')`
first truncates the file, so the intermediate state is empty, which is
neither the old nor the new contents. -/
theorem c6_claim_counterexample : ¬ writeAtomic "old-token" "new-token" := by
  intro h
  have := h "" (by simp [tokenWriteStates])
  simp at this

/-- C6 amended: the credential is written by truncate-then-write, not
write-temp-then-rename: for any distinct non-empty old and new contents the
file passes through the empty state, so an interruption mid-write can leave
the persisted Credential corrupted (empty). -/
theorem c6_truncate_then_write_not_atomic (old new : String)
    (h1 : old ≠ "") (h2 : new ≠ "") :
    "" ∈ tokenWriteStates old new ∧ ¬ writeAtomic old new := by
  refine ⟨by simp [tokenWriteStates], ?_⟩
  intro h
  rcases h "" (by simp [tokenWriteStates]) with h' | h'
  · exact h1 h'.symm
  · exact h2 h'.symm

/-- C6 witness: instantiated at concrete old/new token contents. -/
theorem c6_truncate_then_write_not_atomic_witness :
    "" ∈ tokenWriteStates "tokA" "tokB" ∧ ¬ writeAtomic "tokA" "tokB" :=
  c6_truncate_then_write_not_atomic "tokA" "tokB" (by decide) (by decide)

/-! ## C10 — mark-read label delta -/

/-- C10: `mark_as_read` issues exactly one modify call, whose delta removes
the single label `UNREAD` and adds nothing; under the remote modify
semantics, a label survives the call iff it was present and is not `UNREAD`,
so all other message state is untouched. -/
theorem c10_mark_read_single_unread_removal (message_id : String) :
    mark_as_read_calls message_id = [⟨"me", message_id, [], ["UNREAD"]⟩] ∧
    ∀ (labels : List String) (l : String),
      (l ∈ applyModify labels ⟨"me", message_id, [], ["UNREAD"]⟩ ↔
        l ∈ labels ∧ l ≠ "UNREAD") := by
  refine ⟨rfl, ?_⟩
  intro labels l
  simp [applyModify, List.mem_filter]

/-- C10 witness: at a concrete call, `INBOX` survives marking message `m7`
as read while `UNREAD` is removed. -/
theorem c10_mark_read_single_unread_removal_witness :
    ("INBOX" ∈ applyModify ["INBOX", "UNREAD"] ⟨"me", "m7", [], ["UNREAD"]⟩ ↔
      "INBOX" ∈ ["INBOX", "UNREAD"] ∧ "INBOX" ≠ "UNREAD") :=
  (c10_mark_read_single_unread_removal "m7").2 ["INBOX", "UNREAD"] "INBOX"

/-! ## C1 — partial failure in a batch read -/

/-- Helper for C1: if every id before `bad` fetches and parses successfully
and fetching `bad` raises `HttpError`, the whole fetch loop raises that
`HttpError` — everything accumulated before it is discarded. -/
theorem fetchAll_first_http_error (get : String → Except PyErr Msg)
    (pre post : List String) (bad : String) (s : Nat) (m : String)
    (hpre : ∀ i ∈ pre, ∃ msg e, get i = .ok msg ∧ parse_email msg = .ok e)
    (hbad : get bad = .error (.httpError s m)) :
    fetchAll get (pre ++ bad :: post) = .error (.httpError s m) := by
  induction pre with
  | nil => simp only [List.nil_append, fetchAll, hbad, except_bind_err]
  | cons q qs ih =>
      obtain ⟨msg, e, hq, hp⟩ := hpre q (by simp)
      have ih' := ih (fun j hj => hpre j (by simp [hj]))
      simp only [List.cons_append, fetchAll, hq, except_bind_ok, hp,
        List.append_eq, ih', except_bind_err]

/-- C1 counterexample: a two-id batch (`exEnvC1`) in which the second
`messages().get` raises `HttpError`.  The claim requires the N−1 = 1
successfully decoded Email plus a typed 1-failure report; the code's
batch-level `except HttpError` instead discards the success and returns the
empty list. -/
theorem c1_claim_counterexample : get_unread_emails exEnvC1 = .ok [] := rfl

/-- C1 amended: when any listed message's fetch raises `HttpError` (all
earlier ones succeeding), both batch readers catch it at batch level, print
it, and return the empty list — the N−1 decoded Emails are discarded, no
per-item failure count is reported, and nothing is raised to the caller. -/
theorem c1_batch_error_returns_empty (env : FetchEnv) (pre post : List String)
    (bad : String) (s : Nat) (m : String)
    (hlist : env.listResult = .ok (pre ++ bad :: post))
    (hpre : ∀ i ∈ pre, ∃ msg e, env.getResult i = .ok msg ∧ parse_email msg = .ok e)
    (hbad : env.getResult bad = .error (.httpError s m)) :
    get_unread_emails env = .ok [] ∧ get_emails_by_filter env = .ok [] := by
  have hfetch := fetchAll_first_http_error env.getResult pre post bad s m hpre hbad
  unfold get_unread_emails get_emails_by_filter
  rw [hlist]
  simp only [except_bind_ok, hfetch]
  exact ⟨trivial, trivial⟩

/-- C1 witness: the amended behaviour at the concrete two-id batch. -/
theorem c1_batch_error_returns_empty_witness :
    get_unread_emails exEnvC1 = .ok [] ∧ get_emails_by_filter exEnvC1 = .ok [] :=
  c1_batch_error_returns_empty exEnvC1 ["m1"] [] "m2" 500 "backend error" rfl
    (by
      intro j hj
      simp only [List.mem_singleton] at hj
      subst hj
      exact ⟨exMsgA, exEmailA, rfl, rfl⟩)
    rfl

/-! ## C5 — failing refresh exchange -/

/-- C5 counterexample: with an expired credential bearing a refresh token and
a rejected refresh exchange (`exEnvC5`), `authenticate` ends in a raised
`RefreshError` — it crashes rather than falling through to the consent path
(which `exEnvC5` would have allowed to succeed). -/
theorem c5_claim_counterexample :
    (authenticate exEnvC5).2 = .error .refreshError := rfl

/-- C5 amended: when the persisted credential is expired with a refresh token
and the refresh exchange fails, `creds.refresh(Request())` raises and nothing
catches it: `authenticate` performs only the refresh call and propagates the
exception — it never reaches consent, never writes, and never returns. -/
theorem c5_refresh_failure_raises (env : AuthEnv) (c : Creds)
    (htok : env.tokenFile = some c) (hvalid : c.valid = false)
    (hexp : c.expired = true) (href : c.refreshToken = true)
    (hfail : env.refreshResult = none) :
    authenticate env = ([Effect.refreshCall], .error .refreshError) := by
  simp [authenticate, htok, hvalid, hexp, href, hfail]

/-- C5 witness: the amended behaviour at the concrete environment. -/
theorem c5_refresh_failure_raises_witness :
    authenticate exEnvC5 = ([Effect.refreshCall], .error .refreshError) :=
  c5_refresh_failure_raises exEnvC5 ⟨false, true, true⟩ rfl rfl rfl rfl rfl

/-! ## C9 — valid credential performs no exchange, consent or write -/

/-- C9: with a present, valid persisted credential, `authenticate` goes
straight to service construction: its effect trace is exactly
`[buildService]`, so it performs no refresh exchange, no consent flow, and no
write to the persisted credential. -/
theorem c9_valid_credential_no_io (env : AuthEnv) (c : Creds)
    (htok : env.tokenFile = some c) (hvalid : c.valid = true) :
    authenticate env = ([Effect.buildService], .ok env.buildOk) ∧
    Effect.refreshCall ∉ (authenticate env).1 ∧
    Effect.localServerConsent ∉ (authenticate env).1 ∧
    Effect.writeToken ∉ (authenticate env).1 := by
  have h : authenticate env = ([Effect.buildService], .ok env.buildOk) := by
    simp [authenticate, htok, hvalid, buildStep]
  refine ⟨h, ?_, ?_, ?_⟩ <;> rw [h] <;> simp

/-- C9 witness: the valid-credential environment `exEnvC9`. -/
theorem c9_valid_credential_no_io_witness :
    authenticate exEnvC9 = ([Effect.buildService], .ok exEnvC9.buildOk) ∧
    Effect.refreshCall ∉ (authenticate exEnvC9).1 ∧
    Effect.localServerConsent ∉ (authenticate exEnvC9).1 ∧
    Effect.writeToken ∉ (authenticate exEnvC9).1 :=
  c9_valid_credential_no_io exEnvC9 ⟨true, false, false⟩ rfl rfl

/-! ## C7 — reply threading -/

/-- C7: with `reply_to_id = t`, the built message carries both an
`In-Reply-To` and a `References` header equal to `t`, and the send request
submits thread id `t` alongside the encoded message. -/
theorem c7_reply_threading (a : SendArgs) (t : String) (h : a.reply_to_id = some t) :
    ("In-Reply-To", t) ∈ (buildMessage a).headers ∧
    ("References", t) ∈ (buildMessage a).headers ∧
    (send_email_request a).threadId = some t := by
  refine ⟨?_, ?_, ?_⟩ <;> simp [buildMessage, send_email_request, h]

/-- C7 witness: the reply send `exArgsC7` threaded onto `"T1"`. -/
theorem c7_reply_threading_witness :
    ("In-Reply-To", "T1") ∈ (buildMessage exArgsC7).headers ∧
    ("References", "T1") ∈ (buildMessage exArgsC7).headers ∧
    (send_email_request exArgsC7).threadId = some "T1" :=
  c7_reply_threading exArgsC7 "T1" rfl

/-! ## C8 — send/parse round trip -/

/-- The server-side payload keeps the submitted message headers. -/
theorem payloadOf_headers (m : BuiltMessage) :
    (payloadOfMessage m).headers = m.headers := by
  cases m with
  | mk mime hs => cases mime <;> rfl

/-- Body extraction on the payload of a built message always lands on the one
text part `send_email` attached and decodes its content. -/
theorem get_message_body_payloadOf (a : SendArgs) :
    get_message_body (payloadOfMessage (buildMessage a)) =
      decodeData (b64Encode a.body) := by
  cases hh : a.is_html <;> simp only [buildMessage, hh] <;> rfl

/-- Folding the header loop over the headers `send_email` sets records the
recipient and subject; the threading headers lower to `in-reply-to` and
`references`, which match none of the four extracted names. -/
theorem buildMessage_fold (a : SendArgs) (base : Email) :
    ((buildMessage a).headers).foldl applyHeader base =
      { base with «to» := some a.to_email, subject := some a.subject } := by
  cases hr : a.reply_to_id <;> simp only [buildMessage, hr] <;> rfl

/-- C8: parsing the payload the remote API would present for an encoded
outgoing message recovers the original subject and body content, for plain
and HTML messages alike (the body bytes being any well-formed UTF-8 text). -/
theorem c8_encode_decode_roundtrip (a : SendArgs) (i tid snip : String)
    (hbytes : ∀ x ∈ a.body, x < 256) (hutf : validUtf8 a.body = true) :
    ∃ e : Email, parse_email (msgOfMessage i tid snip (buildMessage a)) = .ok e ∧
      e.subject = some a.subject ∧ e.body = a.body := by
  have hdec := decodeData_b64Encode a.body hbytes hutf
  refine ⟨
    { id := i, thread_id := tid, snippet := snip, date := none, «from» := none,
      «to» := some a.to_email, subject := some a.subject, body := a.body,
      is_html := false }, ?_, rfl, rfl⟩
  simp only [parse_email, msgOfMessage]
  rw [get_message_body_payloadOf a, hdec]
  simp only [Except.map, payloadOf_headers, buildMessage_fold]

/-- C8 witness: a concrete plain-text send round-trips its subject and body
`"Hi"`. -/
theorem c8_encode_decode_roundtrip_witness :
    ∃ e : Email,
      parse_email (msgOfMessage "i1" "t1" "s1" (buildMessage exArgsC8)) = .ok e ∧
      e.subject = some exArgsC8.subject ∧ e.body = exArgsC8.body :=
  c8_encode_decode_roundtrip exArgsC8 "i1" "t1" "s1" (by decide) (by decide)

end GmailFetch
